import Mathlib

/-!
Verification of the HC-SR04 ultrasonic sensor program (src/hc-sr04.c).

The program is embedded shallowly.  Absolute monotonic time is a natural
number of microseconds; the echo GPIO line is a function from absolute time
to a boolean level; the wrapping 32-bit counter time_us_32 is reduction
modulo 2 to the 32.  The two busy-wait polling loops of get_reading_sensor
are modelled at a granularity of one poll per microsecond: in each iteration
the line is read and the elapsed 32-bit time is compared against the timeout,
exactly in the order the C code performs these steps, and time then advances
by one microsecond.  The float arithmetic of the C code (duration / 58.0 and
the range comparison) is modelled by exact rational arithmetic.  The function
result is instrumented with which exit path was taken (first-loop timeout,
second-loop timeout, out-of-range rejection, or success), together with the
list of values written to the trigger line and the captured start timestamp,
if any; the projection Outcome.ret recovers the float value the C function
actually returns (-1.0 on every failure path).
-/

/-- Modulus of the wrapping 32-bit microsecond counter, 2 to the 32. -/
def U32 : Nat := 4294967296

/-- Reading of the wrapping 32-bit microsecond clock time_us_32 at absolute
time t. -/
def time_us_32 (t : Nat) : Nat := t % U32

/-- Unsigned 32-bit subtraction a - b, as C computes it on uint32_t
operands: the difference modulo 2 to the 32. -/
def sub32 (a b : Nat) : Nat := (a % U32 + (U32 - b % U32)) % U32

/-- Timeout threshold of both polling loops, in microseconds (the constant
timeout = 38000 in get_reading_sensor). -/
def TIMEOUT : Nat := 38000

/-- One busy-wait polling loop of get_reading_sensor.  Starting at absolute
time t, the loop reads the echo line; if it already has the awaited level
lvl the loop exits, yielding the time of that observation.  Otherwise the
loop body compares the elapsed time, computed by 32-bit subtraction of the
saved start reading start32 from the current time_us_32 reading, against
TIMEOUT with a strict greater-than, and returns none (the C return -1.0) on
timeout; otherwise it polls again one microsecond later.  The fuel argument
makes the recursion structural; called with fuel TIMEOUT + 2 the timeout
branch always fires before fuel can run out. -/
def waitLevel (echo : Nat → Bool) (lvl : Bool) (start32 : Nat) : Nat → Nat → Option Nat
  | 0, _ => none
  | fuel + 1, t =>
    if echo t = lvl then some t
    else if sub32 (time_us_32 t) start32 > TIMEOUT then none
    else waitLevel echo lvl start32 fuel (t + 1)

/-- Exit paths of get_reading_sensor: timeout in the first polling loop
(echo never rose), timeout in the second polling loop (echo never fell),
rejection of an out-of-range distance, or a successful measurement.  The
two out-of-range and ok constructors carry the computed distance in cm. -/
inductive Outcome where
  | timeoutNoRise : Outcome
  | timeoutNoFall : Outcome
  | outOfRange : ℚ → Outcome
  | ok : ℚ → Outcome
deriving DecidableEq

/-- Float value the C function returns for each exit path: -1.0 on every
failure, the distance on success. -/
def Outcome.ret : Outcome → ℚ
  | .timeoutNoRise => -1
  | .timeoutNoFall => -1
  | .outOfRange _ => -1
  | .ok d => d

/-- Instrumented result of one call to get_reading_sensor: the exit path,
the sequence of levels written to the trigger line during the call, and the
start timestamp captured by get_absolute_time after the first loop, when the
call got that far. -/
structure RunResult where
  outcome : Outcome
  trigWrites : List Bool
  startCaptured : Option Nat
deriving DecidableEq

/-- Absolute time at which the trigger pulse ends: the call starts at t0
with write_trig_pin(0), sleeps 2 us, writes high, sleeps 10 us, and writes
low again at t0 + 12. -/
def triggerEnd (t0 : Nat) : Nat := t0 + 2 + 10

/-- Embedding of get_reading_sensor, started at absolute time t0 against
echo line trace echo.  The trigger pulse writes low, high, low (separated by
the 2 us and 10 us sleeps); the first polling loop then waits for the echo
line to rise, the start timestamp is captured, the second polling loop waits
for the line to fall with a fresh time_us_32 start reading, the duration is
the signed 64-bit difference of the two captured timestamps, the distance is
duration / 58.0, and distances outside [1.0, 400.0] are rejected. -/
def get_reading_sensor (echo : Nat → Bool) (t0 : Nat) : RunResult :=
  match waitLevel echo true (time_us_32 (triggerEnd t0)) (TIMEOUT + 2) (triggerEnd t0) with
  | none => ⟨Outcome.timeoutNoRise, [false, true, false], none⟩
  | some tRise =>
    match waitLevel echo false (time_us_32 tRise) (TIMEOUT + 2) tRise with
    | none => ⟨Outcome.timeoutNoFall, [false, true, false], some tRise⟩
    | some tFall =>
      let distance : ℚ := (((tFall : ℤ) - (tRise : ℤ) : ℤ) : ℚ) / 58
      if distance < 1 ∨ distance > 400 then
        ⟨Outcome.outOfRange distance, [false, true, false], some tRise⟩
      else
        ⟨Outcome.ok distance, [false, true, false], some tRise⟩

/-- Echo line trace of a simulated single echo pulse: the line is high
exactly on the half-open interval from r (the rise) of length d (the pulse
duration in microseconds), and low elsewhere. -/
def pulseEnv (r d : Nat) : Nat → Bool :=
  fun t => decide (r ≤ t ∧ t < r + d)

/-- Elapsed time as the code computes it: subtracting the saved start
reading from the current 32-bit reading recovers the true elapsed time, as
long as it is below the wrap modulus. -/
theorem sub32_elapsed (t k : Nat) (hk : k < U32) :
    sub32 (time_us_32 (t + k)) (time_us_32 t) = k := by
  unfold sub32 time_us_32 U32 at *
  omega

/-- Polling loop, success case: if the line first shows the awaited level at
the k-th poll instant, and k is small enough that neither the timeout branch
nor fuel exhaustion strikes first, the loop exits at that instant.  The loop
was entered at absolute time tS + off with the start reading taken at tS. -/
theorem waitLevel_finds (echo : Nat → Bool) (lvl : Bool) (tS : Nat) :
    ∀ (k off fuel : Nat), k < fuel → off + k ≤ TIMEOUT + 1 →
    (∀ j, j < k → echo (tS + off + j) ≠ lvl) → echo (tS + off + k) = lvl →
    waitLevel echo lvl (time_us_32 tS) fuel (tS + off) = some (tS + off + k) := by
  intro k
  induction k with
  | zero =>
    intro off fuel hfuel _ _ hk
    obtain ⟨fuel, rfl⟩ : ∃ f, fuel = f + 1 := ⟨fuel - 1, by omega⟩
    rw [Nat.add_zero] at hk
    simp only [waitLevel]
    rw [if_pos hk, Nat.add_zero]
  | succ k ih =>
    intro off fuel hfuel hto hpre hk
    obtain ⟨fuel, rfl⟩ : ∃ f, fuel = f + 1 := ⟨fuel - 1, by omega⟩
    have h0 : echo (tS + off) ≠ lvl := by
      have := hpre 0 (Nat.succ_pos k)
      simpa using this
    have hoff : off < U32 := by
      have : TIMEOUT + 1 < U32 := by decide
      omega
    have hofflt : off ≤ TIMEOUT := by omega
    have hnot : ¬ sub32 (time_us_32 (tS + off)) (time_us_32 tS) > TIMEOUT := by
      rw [sub32_elapsed tS off hoff]; omega
    simp only [waitLevel]
    rw [if_neg h0, if_neg hnot]
    rw [show tS + off + 1 = tS + (off + 1) by omega]
    rw [show tS + off + (k + 1) = tS + (off + 1) + k by omega] at hk ⊢
    exact ih (off + 1) fuel (by omega) (by omega)
      (fun j hj => by
        have := hpre (j + 1) (by omega)
        simpa [show tS + off + (j + 1) = tS + (off + 1) + j by omega] using this)
      hk

/-- Polling loop, timeout case: if the line never shows the awaited level at
any instant the loop can visit, the loop returns none.  With off = 0 and
fuel = TIMEOUT + 2 the visited instants are tS, ..., tS + TIMEOUT + 1, and
it is the strict timeout comparison at instant tS + TIMEOUT + 1 (elapsed
TIMEOUT + 1 > TIMEOUT) that fires, not fuel exhaustion. -/
theorem waitLevel_none (echo : Nat → Bool) (lvl : Bool) (tS : Nat) :
    ∀ (fuel off : Nat), off + fuel ≤ TIMEOUT + 2 →
    (∀ j, j < off + fuel → echo (tS + j) ≠ lvl) →
    waitLevel echo lvl (time_us_32 tS) fuel (tS + off) = none := by
  intro fuel
  induction fuel with
  | zero => intro off _ _; simp [waitLevel]
  | succ fuel ih =>
    intro off hto hpre
    have h0 : echo (tS + off) ≠ lvl := hpre off (by omega)
    have hoff : off < U32 := by
      have : TIMEOUT + 2 ≤ U32 := by decide
      omega
    have helapsed : sub32 (time_us_32 (tS + off)) (time_us_32 tS) = off :=
      sub32_elapsed tS off hoff
    by_cases hcase : off > TIMEOUT
    · have hyes : sub32 (time_us_32 (tS + off)) (time_us_32 tS) > TIMEOUT := by
        rw [helapsed]; exact hcase
      simp only [waitLevel]
      rw [if_neg h0, if_pos hyes]
    · have hnot : ¬ sub32 (time_us_32 (tS + off)) (time_us_32 tS) > TIMEOUT := by
        rw [helapsed]; exact hcase
      simp only [waitLevel]
      rw [if_neg h0, if_neg hnot]
      rw [show tS + off + 1 = tS + (off + 1) by omega]
      exact ih (off + 1) (by omega) (fun j hj => hpre j (by omega))

/-- Success case of the polling loop, specialised to entry at the instant of
the start reading (the form in which get_reading_sensor calls it). -/
theorem waitLevel_finds_start (echo : Nat → Bool) (lvl : Bool) (tS k fuel : Nat)
    (hf : k < fuel) (hto : k ≤ TIMEOUT + 1)
    (hpre : ∀ j, j < k → echo (tS + j) ≠ lvl) (hk : echo (tS + k) = lvl) :
    waitLevel echo lvl (time_us_32 tS) fuel tS = some (tS + k) := by
  have h := waitLevel_finds echo lvl tS k 0 fuel hf (by omega)
    (fun j hj => by simpa using hpre j hj) (by simpa using hk)
  simpa using h

/-- Timeout case of the polling loop, specialised to entry at the instant of
the start reading and to the fuel value TIMEOUT + 2 used by the caller. -/
theorem waitLevel_none_start (echo : Nat → Bool) (lvl : Bool) (tS : Nat)
    (hpre : ∀ j, j < TIMEOUT + 2 → echo (tS + j) ≠ lvl) :
    waitLevel echo lvl (time_us_32 tS) (TIMEOUT + 2) tS = none := by
  have h := waitLevel_none echo lvl tS (TIMEOUT + 2) 0 (by omega)
    (fun j hj => hpre j (by omega))
  simpa using h

/-- Full characterization of a call against a single simulated pulse that
rises inside the first timeout window and is short enough for its fall to be
observed: the measured duration is exactly the pulse duration d, and the
call succeeds or rejects according to the range check on d / 58. -/
theorem run_pulse (t0 r d : Nat) (hr1 : triggerEnd t0 ≤ r)
    (hr2 : r ≤ triggerEnd t0 + TIMEOUT) (hd1 : 1 ≤ d) (hd2 : d ≤ TIMEOUT + 1) :
    get_reading_sensor (pulseEnv r d) t0 =
      if (d : ℚ) / 58 < 1 ∨ (d : ℚ) / 58 > 400 then
        ⟨Outcome.outOfRange ((d : ℚ) / 58), [false, true, false], some r⟩
      else
        ⟨Outcome.ok ((d : ℚ) / 58), [false, true, false], some r⟩ := by
  have h1 : waitLevel (pulseEnv r d) true (time_us_32 (triggerEnd t0)) (TIMEOUT + 2)
      (triggerEnd t0) = some (triggerEnd t0 + (r - triggerEnd t0)) :=
    waitLevel_finds_start _ true (triggerEnd t0) (r - triggerEnd t0) (TIMEOUT + 2)
      (by omega) (by omega)
      (fun j hj => by
        simp only [pulseEnv, ne_eq, decide_eq_true_eq, not_and, not_lt]
        omega)
      (by
        simp only [pulseEnv, decide_eq_true_eq]
        omega)
  rw [show triggerEnd t0 + (r - triggerEnd t0) = r by omega] at h1
  have h2 : waitLevel (pulseEnv r d) false (time_us_32 r) (TIMEOUT + 2)
      r = some (r + d) :=
    waitLevel_finds_start _ false r d (TIMEOUT + 2) (by omega) (by omega)
      (fun j hj => by
        simp only [pulseEnv, ne_eq, decide_eq_false_iff_not, not_not]
        omega)
      (by
        simp only [pulseEnv, decide_eq_false_iff_not, not_and, not_lt]
        omega)
  have hcast : ((((r + d : Nat) : ℤ) - ((r : Nat) : ℤ) : ℤ) : ℚ) = (d : ℚ) := by
    push_cast
    ring
  unfold get_reading_sensor
  rw [h1]
  dsimp only
  rw [h2]
  dsimp only
  rw [hcast]

/-- A call against a permanently low echo line times out in the first
polling loop, capturing no start timestamp. -/
theorem run_const_false (t0 : Nat) :
    get_reading_sensor (fun _ => false) t0 =
      ⟨Outcome.timeoutNoRise, [false, true, false], none⟩ := by
  have h1 : waitLevel (fun _ => false) true (time_us_32 (triggerEnd t0)) (TIMEOUT + 2)
      (triggerEnd t0) = none :=
    waitLevel_none_start _ true (triggerEnd t0) (fun j hj => by simp)
  unfold get_reading_sensor
  rw [h1]

/-- Decimal rendering of a rational to two places, modelling the printf
conversion %.2f the C code uses: an optional minus sign, the integer
digits, a point, and exactly two fractional digits, the magnitude rounded
to the nearest hundredth (a tie rounding away from zero).  The rounded
count of hundredths is computed on the numerator and denominator with
integer arithmetic. -/
def fmt2 (q : ℚ) : String :=
  let c : Nat := (q.num.natAbs * 100 * 2 + q.den) / (2 * q.den)
  let sign : String := if q < 0 then "-" else ""
  sign ++ toString (c / 100) ++ "." ++ (if c % 100 < 10 then "0" else "") ++ toString (c % 100)

/-- Console line printed by one iteration of the main loop for the value q
returned by get_reading_sensor. -/
def displayLine (q : ℚ) : String :=
  "Distance: " ++ fmt2 q ++ " cm"

/-- Observable behaviour of one iteration of the main loop: the measurement
taken, the console lines printed, and the delay before the next cycle. -/
structure LoopCycle where
  reading : RunResult
  lines : List String
  delay_ms : Nat
deriving DecidableEq

/-- One iteration of the infinite main loop: call get_reading_sensor, print
one line carrying the returned value formatted to two decimals, then sleep
1000 ms. -/
def mainCycle (echo : Nat → Bool) (t0 : Nat) : LoopCycle :=
  ⟨get_reading_sensor echo t0,
   [displayLine (get_reading_sensor echo t0).outcome.ret],
   1000⟩

/-- The infinite main loop as a total trace of cycles: cycle n runs against
the echo trace envs n, starting at absolute time clocks n.  Totality in n
embeds the fact that the loop body is executed for every n and never
halts. -/
def mainTrace (envs : Nat → Nat → Bool) (clocks : Nat → Nat) (n : Nat) : LoopCycle :=
  mainCycle (envs n) (clocks n)

/-- Startup banner printed once before the loop is entered. -/
def banner : String := "Ultrasonic Sensor HC-SR04"

/-- Console output produced by the time the first n cycles have finished:
the banner, followed by the lines of each cycle in order. -/
def mainOutputPrefix (envs : Nat → Nat → Bool) (clocks : Nat → Nat) (n : Nat) : List String :=
  banner :: (List.range n).flatMap (fun i => (mainTrace envs clocks i).lines)

/-- Every failing exit path makes the C function return the sentinel -1. -/
theorem Outcome.ret_of_fail (o : Outcome) (h : ∀ q, o ≠ Outcome.ok q) : o.ret = -1 := by
  cases o with
  | timeoutNoRise => rfl
  | timeoutNoFall => rfl
  | outOfRange q => rfl
  | ok q => exact absurd rfl (h q)

/-- Each cycle contributes exactly one console line, so n cycles contribute
n lines after the banner. -/
theorem cycleLines_length (envs : Nat → Nat → Bool) (clocks : Nat → Nat) (n : Nat) :
    ((List.range n).flatMap (fun i => (mainTrace envs clocks i).lines)).length = n := by
  induction n with
  | zero => rfl
  | succ n ih =>
    rw [List.range_succ, List.flatMap_append, List.length_append, ih]
    rfl

/-- C1: for every simulated echo pulse of duration d microseconds, rising
anywhere inside the first timeout window, whose converted distance d / 58
lies in the closed interval [1, 400], the measurement returns exactly
d / 58 centimeters. -/
theorem c1_valid_pulse_measured_exactly (t0 r d : Nat)
    (hr1 : triggerEnd t0 ≤ r) (hr2 : r ≤ triggerEnd t0 + TIMEOUT)
    (h1 : 1 ≤ (d : ℚ) / 58) (h2 : (d : ℚ) / 58 ≤ 400) :
    (get_reading_sensor (pulseEnv r d) t0).outcome = Outcome.ok ((d : ℚ) / 58) := by
  have hd1 : 58 ≤ d := by
    have h58 : (58 : ℚ) ≤ (d : ℚ) := by
      have := (le_div_iff₀ (show (0 : ℚ) < 58 by norm_num)).mp h1
      linarith
    exact_mod_cast h58
  have hd2 : d ≤ 23200 := by
    have hq : (d : ℚ) ≤ 23200 := by
      have := (div_le_iff₀ (show (0 : ℚ) < 58 by norm_num)).mp h2
      linarith
    exact_mod_cast hq
  have hguard : ¬((d : ℚ) / 58 < 1 ∨ (d : ℚ) / 58 > 400) := by
    push_neg
    exact ⟨h1, h2⟩
  rw [run_pulse t0 r d hr1 hr2 (by omega) (by unfold TIMEOUT; omega), if_neg hguard]

/-- Witness for C1 at the concrete scenario of the spec: a 580 us pulse
yields exactly 580 / 58 = 10.00 cm. -/
theorem c1_witness :
    triggerEnd 0 ≤ 12 ∧ 12 ≤ triggerEnd 0 + TIMEOUT ∧
    1 ≤ (580 : ℚ) / 58 ∧ (580 : ℚ) / 58 ≤ 400 ∧
    (get_reading_sensor (pulseEnv 12 580) 0).outcome = Outcome.ok ((580 : ℚ) / 58) ∧
    (580 : ℚ) / 58 = 10 :=
  ⟨by decide, by decide, by norm_num, by norm_num,
   c1_valid_pulse_measured_exactly 0 12 580 (by decide) (by decide)
     (by norm_num) (by norm_num),
   by norm_num⟩

/-- C2: if the echo line never rises at any instant the first polling loop
can observe, the call fails in the first loop with the timeout sentinel, and no start
timestamp is ever captured. -/
theorem c2_no_rise_times_out (t0 : Nat) (echo : Nat → Bool)
    (h : ∀ j, j ≤ TIMEOUT + 1 → echo (triggerEnd t0 + j) = false) :
    (get_reading_sensor echo t0).outcome = Outcome.timeoutNoRise ∧
    (get_reading_sensor echo t0).startCaptured = none := by
  have h1 : waitLevel echo true (time_us_32 (triggerEnd t0)) (TIMEOUT + 2)
      (triggerEnd t0) = none :=
    waitLevel_none_start _ true _ (fun j hj => by simp [h j (by omega)])
  unfold get_reading_sensor
  rw [h1]
  exact ⟨rfl, rfl⟩

/-- Witness for C2: a permanently low echo line times out in the first
loop with no start timestamp captured. -/
theorem c2_witness :
    (get_reading_sensor (fun _ => false) 0).outcome = Outcome.timeoutNoRise ∧
    (get_reading_sensor (fun _ => false) 0).startCaptured = none :=
  c2_no_rise_times_out 0 (fun _ => false) (fun _ _ => rfl)

/-- C3: if the echo line rises inside the first window but then stays high
at every instant the second polling loop can observe, the call fails in the
second loop; that loop's window is measured from the start of the second
wait (the observed rise), not from the trigger. -/
theorem c3_no_fall_times_out (t0 : Nat) (echo : Nat → Bool) (r : Nat)
    (hr1 : triggerEnd t0 ≤ r) (hr2 : r ≤ triggerEnd t0 + TIMEOUT)
    (hpre : ∀ t, triggerEnd t0 ≤ t → t < r → echo t = false)
    (hrise : echo r = true)
    (hstuck : ∀ j, j ≤ TIMEOUT + 1 → echo (r + j) = true) :
    (get_reading_sensor echo t0).outcome = Outcome.timeoutNoFall := by
  have h1 : waitLevel echo true (time_us_32 (triggerEnd t0)) (TIMEOUT + 2)
      (triggerEnd t0) = some (triggerEnd t0 + (r - triggerEnd t0)) :=
    waitLevel_finds_start _ true _ (r - triggerEnd t0) _ (by omega) (by omega)
      (fun j hj => by
        rw [hpre (triggerEnd t0 + j) (by omega) (by omega)]
        simp)
      (by rw [show triggerEnd t0 + (r - triggerEnd t0) = r by omega]; exact hrise)
  rw [show triggerEnd t0 + (r - triggerEnd t0) = r by omega] at h1
  have h2 : waitLevel echo false (time_us_32 r) (TIMEOUT + 2) r = none :=
    waitLevel_none_start _ false _ (fun j hj => by simp [hstuck j (by omega)])
  unfold get_reading_sensor
  rw [h1]
  dsimp only
  rw [h2]

/-- Witness for C3: a line that rises at the end of the trigger pulse and
never falls again makes the call time out in the second loop. -/
theorem c3_witness :
    (get_reading_sensor (fun t => decide (12 ≤ t)) 0).outcome = Outcome.timeoutNoFall :=
  c3_no_fall_times_out 0 (fun t => decide (12 ≤ t)) 12 (by decide) (by decide)
    (fun t h1 h2 => absurd h2 (by unfold triggerEnd at h1; omega))
    (by decide)
    (fun j hj => decide_eq_true (Nat.le_add_right 12 j))

/-- C4: a measured pulse whose converted distance d / 58 falls below 1 or
above 400 is rejected by the range check; acceptance is inclusive at the
bounds. -/
theorem c4_out_of_range_rejected (t0 r d : Nat)
    (hr1 : triggerEnd t0 ≤ r) (hr2 : r ≤ triggerEnd t0 + TIMEOUT)
    (hd1 : 1 ≤ d) (hd2 : d ≤ TIMEOUT + 1)
    (hout : (d : ℚ) / 58 < 1 ∨ (d : ℚ) / 58 > 400) :
    (get_reading_sensor (pulseEnv r d) t0).outcome = Outcome.outOfRange ((d : ℚ) / 58) := by
  rw [run_pulse t0 r d hr1 hr2 hd1 hd2, if_pos hout]

/-- Witness for C4 at the concrete boundary scenarios of the spec: the
23260 us pulse converts to 23260 / 58 cm (about 401.03), exceeds 400, and
is rejected, while the 23200 us boundary pulse converts to exactly 400.00
cm and is accepted. -/
theorem c4_witness :
    (23260 : ℚ) / 58 > 400 ∧
    (get_reading_sensor (pulseEnv 12 23260) 0).outcome = Outcome.outOfRange ((23260 : ℚ) / 58) ∧
    (get_reading_sensor (pulseEnv 12 23200) 0).outcome = Outcome.ok 400 := by
  refine ⟨by norm_num,
    c4_out_of_range_rejected 0 12 23260 (by decide) (by decide) (by decide) (by decide)
      (Or.inr (by norm_num)), ?_⟩
  rw [run_pulse 0 12 23200 (by decide) (by decide) (by decide) (by decide),
    if_neg (by norm_num)]
  norm_num [Outcome.ok.injEq]

/-- C5: every call writes exactly low, high, low to the trigger line, in
that order, on every exit path, so the line is left low when the call
returns. -/
theorem c5_trigger_writes (echo : Nat → Bool) (t0 : Nat) :
    (get_reading_sensor echo t0).trigWrites = [false, true, false] ∧
    (get_reading_sensor echo t0).trigWrites.getLast? = some false := by
  have h : (get_reading_sensor echo t0).trigWrites = [false, true, false] := by
    unfold get_reading_sensor
    split
    · rfl
    · split
      · rfl
      · dsimp only
        split <;> rfl
  exact ⟨h, by rw [h]; rfl⟩

/-- C6: each main-loop cycle prints exactly one line, of the form
Distance: v cm with v the returned value rendered to two decimal places;
when the measurement fails for either reason the returned value is -1 and
the printed line is Distance: -1.00 cm, so the two failure kinds are
indistinguishable in the output. -/
theorem c6_display_line (echo : Nat → Bool) (t0 : Nat) :
    (mainCycle echo t0).lines = [displayLine (get_reading_sensor echo t0).outcome.ret] ∧
    ((∀ q, (get_reading_sensor echo t0).outcome ≠ Outcome.ok q) →
      (mainCycle echo t0).lines = ["Distance: -1.00 cm"]) := by
  constructor
  · rfl
  · intro h
    have hret := Outcome.ret_of_fail _ h
    show [displayLine (get_reading_sensor echo t0).outcome.ret] = _
    rw [hret]
    decide

/-- Witness for C6: the concrete scenario of the spec, a permanently low
echo line (no rise within the timeout), prints Distance: -1.00 cm. -/
theorem c6_witness :
    (mainCycle (fun _ => false) 0).lines = ["Distance: -1.00 cm"] :=
  (c6_display_line (fun _ => false) 0).2
    (fun q h => by
      rw [run_const_false 0] at h
      exact Outcome.noConfusion h)

/-- C7: the main loop never halts: for every cycle index n the loop body
runs, taking one measurement, printing exactly one line, and then delaying
exactly 1000 ms, whatever the outcome; the console output after n cycles is
the banner, printed once, plus one line per completed cycle. -/
theorem c7_loop_forever (envs : Nat → Nat → Bool) (clocks : Nat → Nat) (n : Nat) :
    (mainTrace envs clocks n).delay_ms = 1000 ∧
    (mainTrace envs clocks n).reading = get_reading_sensor (envs n) (clocks n) ∧
    (mainTrace envs clocks n).lines.length = 1 ∧
    (mainOutputPrefix envs clocks n).length = n + 1 := by
  refine ⟨rfl, rfl, rfl, ?_⟩
  show ((List.range n).flatMap (fun i => (mainTrace envs clocks i).lines)).length + 1 = n + 1
  rw [cycleLines_length]

/-- C8: the measurement is a deterministic function of the simulated echo
trace and the starting clock value: two calls against pointwise-equal echo
traces and the same clock return identical results. -/
theorem c8_deterministic (e1 e2 : Nat → Bool) (t0 : Nat)
    (h : ∀ t, e1 t = e2 t) :
    get_reading_sensor e1 t0 = get_reading_sensor e2 t0 := by
  have he : e1 = e2 := funext h
  rw [he]

/-- Witness for C8 at a concrete trace. -/
theorem c8_witness :
    get_reading_sensor (fun _ => false) 0 = get_reading_sensor (fun _ => false) 0 :=
  c8_deterministic (fun _ => false) (fun _ => false) 0 (fun _ => rfl)

/-- C9: both timeout comparisons are strict, so an awaited edge observed at
an elapsed time of exactly TIMEOUT microseconds does not time out: a pulse
rising exactly TIMEOUT us after the first wait begins is caught (and with
duration d = TIMEOUT its fall is observed exactly TIMEOUT us into the
second wait), and the call proceeds to the measurement instead of failing
with either timeout. -/
theorem c9_strict_timeout_boundary (t0 d : Nat) (hd1 : 1 ≤ d) (hd2 : d ≤ TIMEOUT) :
    (get_reading_sensor (pulseEnv (triggerEnd t0 + TIMEOUT) d) t0).outcome ≠ Outcome.timeoutNoRise ∧
    (get_reading_sensor (pulseEnv (triggerEnd t0 + TIMEOUT) d) t0).outcome ≠ Outcome.timeoutNoFall := by
  rw [run_pulse t0 (triggerEnd t0 + TIMEOUT) d (by omega) (by omega) hd1 (by omega)]
  constructor <;> split <;> simp

/-- Witness for C9 at both exact boundaries: the pulse rises exactly
TIMEOUT us into the first wait and, having duration TIMEOUT, falls exactly
TIMEOUT us into the second wait, and neither timeout fires. -/
theorem c9_witness :
    1 ≤ TIMEOUT ∧ TIMEOUT ≤ TIMEOUT ∧
    ((get_reading_sensor (pulseEnv (triggerEnd 0 + TIMEOUT) TIMEOUT) 0).outcome ≠ Outcome.timeoutNoRise ∧
     (get_reading_sensor (pulseEnv (triggerEnd 0 + TIMEOUT) TIMEOUT) 0).outcome ≠ Outcome.timeoutNoFall) :=
  ⟨by decide, le_refl _, c9_strict_timeout_boundary 0 TIMEOUT (by decide) (le_refl _)⟩

/-- C10: every value the measurement can return is either the failure
sentinel -1 or a distance in the closed interval [1, 400]. -/
theorem c10_return_range (echo : Nat → Bool) (t0 : Nat) :
    (get_reading_sensor echo t0).outcome.ret = -1 ∨
    (1 ≤ (get_reading_sensor echo t0).outcome.ret ∧
     (get_reading_sensor echo t0).outcome.ret ≤ 400) := by
  unfold get_reading_sensor
  split
  · left; rfl
  · split
    · left; rfl
    · dsimp only
      split
      · left; rfl
      · rename_i hcond
        push_neg at hcond
        right
        exact ⟨hcond.1, hcond.2⟩
